import Mathlib

/-!
Shallow embedding of the skald-mcp tool contract layer: the per-tool
parameter schemas, validation rules, request shapers, response formatters
and error mapping of the MCP adapter, translated from the TypeScript
source (the extended tool surface, with the legacy 3-tool surface kept
where a claim refers to it).

Modelling conventions:
* a caller-omitted (JavaScript `undefined`) optional argument is `none`;
  a payload field that is `none` means the key is absent from the shaped
  backend payload, `some v` means the key is present with value `v`;
* JavaScript truthiness guards (`if (args.x)`) are modelled per type:
  a string is truthy iff non-empty, an array or object is always truthy,
  `undefined` is falsy;
* a thrown JavaScript value is `Thrown`: either an `Error` instance
  (whose `.message` is read) or any other value (whose `String(...)`
  conversion is read);
* `Array.prototype.join` is `joinSep`, with JavaScript's semantics.
-/

namespace SkaldMcp

/-- JavaScript truthiness of an optional string argument: `undefined` and
the empty string are falsy, every other string is truthy. -/
def strTruthy : Option String → Bool
  | none => false
  | some s => !(s == "")

/-- JavaScript truthiness of an optional array- or object-valued argument:
`undefined` is falsy; an array or object (even empty) is truthy. -/
def objTruthy {α : Type} : Option α → Bool
  | none => false
  | some _ => true

/-- `Array.prototype.join(sep)`: empty array gives `""`, otherwise the
elements interleaved with the separator. -/
def joinSep (sep : String) : List String → String
  | [] => ""
  | [x] => x
  | x :: y :: ys => x ++ sep ++ joinSep sep (y :: ys)

/-! ## Filter DSL (`filterSchema`) -/

/-- The `operator` enumeration of `filterSchema`:
`eq, neq, contains, startswith, endswith, in, not_in`
(`in` is a Lean keyword, hence `in_`). -/
inductive FilterOperator
  | eq | neq | contains | startswith | endswith | in_ | not_in
deriving DecidableEq

/-- The `value` of a filter: `z.union([z.string(), z.array(z.string())])`. -/
inductive FilterValue
  | str (s : String)
  | strList (xs : List String)
deriving DecidableEq

/-- The `filter_type` enumeration: `native_field` or `custom_metadata`. -/
inductive FilterKind
  | native_field | custom_metadata
deriving DecidableEq

/-- One filter object of the reusable `filterSchema`. -/
structure Filter where
  field : String
  operator : FilterOperator
  value : FilterValue
  filter_type : FilterKind
deriving DecidableEq

/-- Custom JSON metadata (`z.record(z.any())`): an opaque key/value record;
the adapter never inspects it, only forwards it, so the value side is kept
as strings. -/
structure Metadata where
  entries : List (String × String)
deriving DecidableEq

/-- The `id_type` enumeration shared by get/update/delete:
`memo_uuid` (default) or `reference_id`. -/
inductive IdType
  | memo_uuid | reference_id
deriving DecidableEq

/-! ## skald-chat: arguments and request shaper -/

/-- Validated arguments of `skald-chat`: required `query`, optional
`project_id` and `filters`. -/
structure ChatArgs where
  query : String
  project_id : Option String
  filters : Option (List Filter)
deriving DecidableEq

/-- The shaped backend payload for `skald.chat`; `none` means the key is
absent from the payload object. -/
structure ChatPayload where
  query : String
  project_id : Option String
  filters : Option (List Filter)
deriving DecidableEq

/-- Request shaper of `skald-chat`, mirroring:
`const chatParams: any = { query: args.query };`
`if (args.project_id) { chatParams.project_id = args.project_id; }`
`if (args.filters) { chatParams.filters = args.filters; }` -/
def chatParams (args : ChatArgs) : ChatPayload :=
  ⟨args.query,
   if strTruthy args.project_id then args.project_id else none,
   if objTruthy args.filters then args.filters else none⟩

/-! ## skald-search: schema, validation and request shaper -/

/-- The `search_method` enumeration of the extended surface:
`z.enum(['chunk_semantic_search'])`. -/
inductive SearchMethod
  | chunk_semantic_search
deriving DecidableEq

/-- The `search_method` enumeration of the legacy 3-tool surface:
`z.enum(['chunk_vector_search', 'title_contains', 'title_startswith'])`. -/
inductive SearchMethodLegacy
  | chunk_vector_search | title_contains | title_startswith
deriving DecidableEq

/-- Zod enum parsing of the extended `search_method`. -/
def parseSearchMethod (s : String) : Option SearchMethod :=
  if s = "chunk_semantic_search" then some SearchMethod.chunk_semantic_search
  else none

/-- Zod enum parsing of the legacy `search_method`. -/
def parseSearchMethodLegacy (s : String) : Option SearchMethodLegacy :=
  if s = "chunk_vector_search" then some SearchMethodLegacy.chunk_vector_search
  else if s = "title_contains" then some SearchMethodLegacy.title_contains
  else if s = "title_startswith" then some SearchMethodLegacy.title_startswith
  else none

/-- Raw (pre-validation) arguments of `skald-search`: `search_method` is an
arbitrary string and `limit` may be omitted. JavaScript numbers are modelled
as exact rationals, which is faithful for the order comparisons the schema
performs. -/
structure RawSearchArgs where
  query : String
  search_method : String
  limit : Option ℚ
  filters : Option (List Filter)

/-- Validated arguments of `skald-search`: the enum is parsed and the
`limit` default of 10 has been applied, so `limit` is always present. -/
structure SearchArgs where
  query : String
  search_method : SearchMethod
  limit : ℚ
  filters : Option (List Filter)

/-- Zod validation of the `skald-search` schema:
`search_method: z.enum(['chunk_semantic_search'])`,
`limit: z.number().min(1).max(50).optional().default(10)`.
`none` is a validation rejection (no backend call is attempted). -/
def validateSearch (r : RawSearchArgs) : Option SearchArgs :=
  match parseSearchMethod r.search_method with
  | none => none
  | some m =>
    match r.limit with
    | none => some ⟨r.query, m, 10, r.filters⟩
    | some l => if 1 ≤ l ∧ l ≤ 50 then some ⟨r.query, m, l, r.filters⟩ else none

/-- The shaped backend payload for `skald.search`. `limit` is always
present (the schema default has been applied before shaping). -/
structure SearchPayload where
  query : String
  search_method : SearchMethod
  limit : ℚ
  filters : Option (List Filter)

/-- Request shaper of `skald-search`, mirroring:
`const searchParams: any = { query, search_method, limit };`
`if (args.filters) { searchParams.filters = args.filters; }` -/
def searchParams (args : SearchArgs) : SearchPayload :=
  ⟨args.query, args.search_method, args.limit,
   if objTruthy args.filters then args.filters else none⟩

/-! ## skald-create-memo: arguments and request shaper -/

/-- Validated arguments of `skald-create-memo`. -/
structure CreateMemoArgs where
  title : String
  content : String
  project_id : Option String
  metadata : Option Metadata
  reference_id : Option String
  tags : Option (List String)
  source : Option String
deriving DecidableEq

/-- The shaped backend payload for `skald.createMemo`. -/
structure CreateMemoPayload where
  title : String
  content : String
  project_id : Option String
  metadata : Option Metadata
  reference_id : Option String
  tags : Option (List String)
  source : Option String
deriving DecidableEq

/-- Request shaper of `skald-create-memo` (`memoData`), mirroring:
`const memoData: any = { title: args.title, content: args.content };`
`if (args.project_id) memoData.project_id = args.project_id;`
`if (args.metadata) memoData.metadata = args.metadata;`
`if (args.reference_id) memoData.reference_id = args.reference_id;`
`if (args.tags) memoData.tags = args.tags;`
`if (args.source) memoData.source = args.source;` -/
def memoData (args : CreateMemoArgs) : CreateMemoPayload :=
  ⟨args.title, args.content,
   if strTruthy args.project_id then args.project_id else none,
   if objTruthy args.metadata then args.metadata else none,
   if strTruthy args.reference_id then args.reference_id else none,
   if objTruthy args.tags then args.tags else none,
   if strTruthy args.source then args.source else none⟩

/-! ## skald-update-memo: arguments and request shaper -/

/-- Validated arguments of `skald-update-memo`: `memo_id` required,
`id_type` defaulted, all six body fields optional. -/
structure UpdateMemoArgs where
  memo_id : String
  id_type : IdType
  title : Option String
  content : Option String
  metadata : Option Metadata
  client_reference_id : Option String
  source : Option String
  expiration_date : Option String
deriving DecidableEq

/-- The shaped backend body for `skald.updateMemo` (`memo_id` and `id_type`
are passed as separate positional arguments, not in this body). -/
structure UpdateMemoPayload where
  title : Option String
  content : Option String
  metadata : Option Metadata
  client_reference_id : Option String
  source : Option String
  expiration_date : Option String
deriving DecidableEq

/-- Request shaper of `skald-update-memo` (`updateData`), mirroring:
`const updateData: any = {};`
`if (args.title !== undefined) updateData.title = args.title;`
`if (args.content !== undefined) updateData.content = args.content;`
`if (args.metadata !== undefined) updateData.metadata = args.metadata;`
`if (args.client_reference_id !== undefined) updateData.client_reference_id = args.client_reference_id;`
`if (args.source !== undefined) updateData.source = args.source;`
`if (args.expiration_date !== undefined) updateData.expiration_date = args.expiration_date;` -/
def updateData (args : UpdateMemoArgs) : UpdateMemoPayload :=
  ⟨if args.title.isSome then args.title else none,
   if args.content.isSome then args.content else none,
   if args.metadata.isSome then args.metadata else none,
   if args.client_reference_id.isSome then args.client_reference_id else none,
   if args.source.isSome then args.source else none,
   if args.expiration_date.isSome then args.expiration_date else none⟩

end SkaldMcp

namespace SkaldMcp

/-! ## Claim C1: optional-field elision in the request shapers -/

/-- C1, counterexample. The claim says a shaped payload contains a key for
an optional parameter if and only if the caller supplied that parameter
with a defined value. This fails on the code: the `skald-chat` shaper
guards `project_id` with JavaScript truthiness (`if (args.project_id)`),
so a supplied, defined, empty-string `project_id` is dropped from the
payload. -/
theorem chatParams_drops_defined_falsy_project_id :
    ¬ (∀ args : ChatArgs,
        (chatParams args).project_id.isSome = args.project_id.isSome) := by
  intro h
  have hc := h ⟨"q", some "", none⟩
  simp [chatParams, strTruthy] at hc

/-- C1, amended. For every tool shaper: required fields are always copied;
an optional string field keyed on truthiness appears in the payload iff it
was supplied with a non-empty value (supplied empty strings are dropped);
array- and object-valued optional fields (`filters`, `metadata`, `tags`)
appear iff supplied; the `skald-update-memo` shaper keys on definedness
alone, so every supplied field (even an empty string) appears; no absent
field is ever forwarded as a placeholder, and omitting every optional
field yields exactly the required fields. -/
theorem shapers_optional_field_elision :
    (∀ args : ChatArgs,
        chatParams args =
          ⟨args.query, args.project_id.filter (fun s => !(s == "")), args.filters⟩)
  ∧ (∀ args : SearchArgs,
        searchParams args =
          ⟨args.query, args.search_method, args.limit, args.filters⟩)
  ∧ (∀ args : CreateMemoArgs,
        memoData args =
          ⟨args.title, args.content,
           args.project_id.filter (fun s => !(s == "")),
           args.metadata,
           args.reference_id.filter (fun s => !(s == "")),
           args.tags,
           args.source.filter (fun s => !(s == ""))⟩)
  ∧ (∀ args : UpdateMemoArgs,
        updateData args =
          ⟨args.title, args.content, args.metadata,
           args.client_reference_id, args.source, args.expiration_date⟩)
  ∧ (∀ q, chatParams ⟨q, none, none⟩ = ⟨q, none, none⟩)
  ∧ (∀ t c, memoData ⟨t, c, none, none, none, none, none⟩ =
        ⟨t, c, none, none, none, none, none⟩)
  ∧ (∀ mid idt, updateData ⟨mid, idt, none, none, none, none, none, none⟩ =
        ⟨none, none, none, none, none, none⟩) := by
  refine ⟨fun args => ?_, fun args => ?_, fun args => ?_, fun args => ?_,
          fun q => rfl, fun t c => rfl, fun mid idt => rfl⟩
  · obtain ⟨q, p, f⟩ := args
    cases p <;> cases f <;>
      simp [chatParams, strTruthy, objTruthy, Option.filter]
  · obtain ⟨q, m, l, f⟩ := args
    cases f <;> simp [searchParams, objTruthy]
  · obtain ⟨t, c, p, md, r, tg, s⟩ := args
    cases p <;> cases md <;> cases r <;> cases tg <;> cases s <;>
      simp [memoData, strTruthy, objTruthy, Option.filter]
  · obtain ⟨mid, idt, t, c, md, cr, s, e⟩ := args
    cases t <;> cases c <;> cases md <;> cases cr <;> cases s <;> cases e <;>
      simp [updateData]

/-! ## Claim C3: update-memo forwards only the supplied fields -/

/-- C3. For every `skald-update-memo` invocation that supplies `memo_id`
and `title` and omits every other optional field, the shaped update body
contains the `title` key (with the supplied value) and contains no
`content`, `metadata`, `client_reference_id`, `source` or
`expiration_date` key at all. -/
theorem updateData_title_only_payload (mid : String) (idt : IdType) (t : String) :
    (updateData ⟨mid, idt, some t, none, none, none, none, none⟩).title = some t
  ∧ (updateData ⟨mid, idt, some t, none, none, none, none, none⟩).content = none
  ∧ (updateData ⟨mid, idt, some t, none, none, none, none, none⟩).metadata = none
  ∧ (updateData ⟨mid, idt, some t, none, none, none, none, none⟩).client_reference_id = none
  ∧ (updateData ⟨mid, idt, some t, none, none, none, none, none⟩).source = none
  ∧ (updateData ⟨mid, idt, some t, none, none, none, none, none⟩).expiration_date = none :=
  ⟨rfl, rfl, rfl, rfl, rfl, rfl⟩

/-! ## Thrown values, tool outcomes and the per-tool handlers -/

/-- A thrown JavaScript value as the catch blocks discriminate it:
`error instanceof Error ? error.message : String(error)`. An `Error`
instance carries a `.message`; any other thrown value only has its
`String(...)` conversion. -/
inductive Thrown
  | errorInstance (message : String)
  | otherValue (stringRep : String)
deriving DecidableEq

/-- The message extraction performed by every catch block:
`const errorMessage = error instanceof Error ? error.message : String(error);` -/
def extractErrorMessage : Thrown → String
  | Thrown.errorInstance m => m
  | Thrown.otherValue s => s

/-- The outcome of one tool invocation as seen by the MCP host: either a
normal text content block, or a thrown `Error` propagated as a tool-level
error. -/
inductive ToolOutcome
  | text (t : String)
  | toolError (message : String)
deriving DecidableEq

/-- The `skald-chat` handler applied to the single backend outcome of
`skald.chat(chatParams)` (the handler performs exactly one backend call
and never retries). Success mirrors
`text: response || 'No response received'`; the catch block mirrors
re-throwing with the fixed chat prefix. -/
def skaldChatHandler (outcome : Except Thrown String) : ToolOutcome :=
  match outcome with
  | Except.ok r => ToolOutcome.text (if r == "" then "No response received" else r)
  | Except.error e =>
      ToolOutcome.toolError ("Failed to get response from Skald chat: " ++ extractErrorMessage e)

/-- The structured result of `skald.createMemo` / `skald.updateMemo`:
a result object flagged ok or not-ok, returned rather than thrown. -/
structure OkResponse where
  ok : Bool
deriving DecidableEq

/-- The `skald-create-memo` handler applied to the single backend outcome
of `skald.createMemo(memoData)`. A structured not-ok result is rendered as
the fixed failure text inside a normal content block; only a thrown
backend failure becomes a tool error. -/
def skaldCreateMemoHandler (args : CreateMemoArgs) (outcome : Except Thrown OkResponse) :
    ToolOutcome :=
  match outcome with
  | Except.ok r =>
      ToolOutcome.text
        (if r.ok then "✓ Memo \"" ++ args.title ++ "\" created successfully!"
         else "Failed to create memo")
  | Except.error e =>
      ToolOutcome.toolError ("Failed to create Skald memo: " ++ extractErrorMessage e)

/-- The `skald-update-memo` handler applied to the single backend outcome
of `skald.updateMemo(memo_id, updateData, id_type)`; like create-memo it
has a structured not-ok formatting branch. -/
def skaldUpdateMemoHandler (args : UpdateMemoArgs) (outcome : Except Thrown OkResponse) :
    ToolOutcome :=
  match outcome with
  | Except.ok r =>
      ToolOutcome.text
        (if r.ok then "✓ Memo \"" ++ args.memo_id ++ "\" updated successfully!"
         else "Failed to update memo")
  | Except.error e =>
      ToolOutcome.toolError ("Failed to update Skald memo: " ++ extractErrorMessage e)

/-- The `skald-delete-memo` handler applied to the single backend outcome
of `skald.deleteMemo(memo_id, id_type)`, which returns no value: the
success branch is unconditional and there is no not-ok formatting branch. -/
def skaldDeleteMemoHandler (memo_id : String) (outcome : Except Thrown Unit) : ToolOutcome :=
  match outcome with
  | Except.ok _ =>
      ToolOutcome.text ("✓ Memo \"" ++ memo_id ++ "\" deleted successfully!")
  | Except.error e =>
      ToolOutcome.toolError ("Failed to delete Skald memo: " ++ extractErrorMessage e)

/-! ## Claim C5: chat backend failures are re-signaled with a fixed prefix -/

/-- C5. Every backend failure of `skald-chat` is re-signaled as a tool
error whose text is the fixed prefix followed by the failure's message:
a failure with message "network timeout" surfaces exactly as
`Failed to get response from Skald chat: network timeout`, and a thrown
value that is not an `Error` instance (so carries no message) contributes
its string conversion instead. The handler consumes exactly one backend
outcome, so the call is never retried. -/
theorem chatHandler_failure_prefix :
    (∀ e : Thrown,
        skaldChatHandler (Except.error e) =
          ToolOutcome.toolError ("Failed to get response from Skald chat: " ++ extractErrorMessage e))
  ∧ skaldChatHandler (Except.error (Thrown.errorInstance "network timeout")) =
      ToolOutcome.toolError "Failed to get response from Skald chat: network timeout"
  ∧ (∀ s : String, extractErrorMessage (Thrown.otherValue s) = s) := by
  refine ⟨fun e => rfl, ?_, fun s => rfl⟩
  rfl

/-! ## Claim C7: create-memo response branches -/

/-- C7. When the backend returns an ok-flagged result for the title
"API Reference", the formatted text is exactly
`✓ Memo "API Reference" created successfully!`; a not-ok-flagged result
yields the fixed text "Failed to create memo" as a normal (successful)
content block; no structured result is ever escalated to a tool error. -/
theorem createMemoHandler_response_branches :
    (∀ content p md r tg s,
        skaldCreateMemoHandler ⟨"API Reference", content, p, md, r, tg, s⟩
            (Except.ok ⟨true⟩) =
          ToolOutcome.text "✓ Memo \"API Reference\" created successfully!")
  ∧ (∀ args : CreateMemoArgs,
        skaldCreateMemoHandler args (Except.ok ⟨false⟩) =
          ToolOutcome.text "Failed to create memo")
  ∧ (∀ (args : CreateMemoArgs) (r : OkResponse),
        ∃ t, skaldCreateMemoHandler args (Except.ok r) = ToolOutcome.text t) := by
  refine ⟨fun content p md r tg s => rfl, fun args => rfl, fun args r => ?_⟩
  exact ⟨_, rfl⟩

/-! ## Claim C10: delete-memo success is unconditional -/

/-- C10. A `skald-delete-memo` invocation whose backend call resolves
without raising returns the success confirmation
`✓ Memo "<memo_id>" deleted successfully!` unconditionally; every outcome
is either that success text or a re-signaled tool error with the fixed
delete prefix — unlike create-memo and update-memo there is no structured
not-ok branch, so delete can never produce a formatted failure text. -/
theorem deleteMemoHandler_success_unconditional :
    (∀ mid : String,
        skaldDeleteMemoHandler mid (Except.ok ()) =
          ToolOutcome.text ("✓ Memo \"" ++ mid ++ "\" deleted successfully!"))
  ∧ (∀ (mid : String) (o : Except Thrown Unit),
        skaldDeleteMemoHandler mid o =
            ToolOutcome.text ("✓ Memo \"" ++ mid ++ "\" deleted successfully!")
          ∨ ∃ e, o = Except.error e
              ∧ skaldDeleteMemoHandler mid o =
                  ToolOutcome.toolError ("Failed to delete Skald memo: " ++ extractErrorMessage e))
  ∧ (∀ (mid : String) (e : Thrown),
        skaldDeleteMemoHandler mid (Except.error e) =
          ToolOutcome.toolError ("Failed to delete Skald memo: " ++ extractErrorMessage e)) := by
  refine ⟨fun mid => rfl, fun mid o => ?_, fun mid e => rfl⟩
  cases o with
  | ok u => exact Or.inl rfl
  | error e => exact Or.inr ⟨e, rfl, rfl⟩

/-! ## Claim C2: the registered tool surface -/

/-- One `server.tool(name, description, schema, handler)` registration,
recording the stable name and the schema's required and optional
parameter names. -/
structure ToolRegistration where
  name : String
  requiredParams : List String
  optionalParams : List String
deriving DecidableEq

/-- The complete registration sequence of the extended tool surface, in
source order: six `server.tool` calls (chat, search, create-memo,
get-memo, update-memo, delete-memo). -/
def extendedToolRegistrations : List ToolRegistration :=
  [⟨"skald-chat", ["query"], ["project_id", "filters"]⟩,
   ⟨"skald-search", ["query", "search_method"], ["limit", "filters"]⟩,
   ⟨"skald-create-memo", ["title", "content"],
      ["project_id", "metadata", "reference_id", "tags", "source"]⟩,
   ⟨"skald-get-memo", ["memo_id"], ["id_type"]⟩,
   ⟨"skald-update-memo", ["memo_id"],
      ["id_type", "title", "content", "metadata", "client_reference_id",
       "source", "expiration_date"]⟩,
   ⟨"skald-delete-memo", ["memo_id"], ["id_type"]⟩]

/-- C2, evaluated on the code. The extended source file registers exactly
six tools, in this order, and never registers a `skald-generate` tool —
the repository README documents a seventh `skald-generate` tool
(required `prompt`, optional `rules` and `filters`) that the registration
sequence does not contain. -/
theorem extendedToolSurface_registers_six_tools :
    extendedToolRegistrations.map ToolRegistration.name =
      ["skald-chat", "skald-search", "skald-create-memo", "skald-get-memo",
       "skald-update-memo", "skald-delete-memo"]
  ∧ extendedToolRegistrations.length = 6
  ∧ "skald-generate" ∉ extendedToolRegistrations.map ToolRegistration.name := by
  refine ⟨rfl, rfl, ?_⟩
  decide

/-! ## Claim C4: search validation — enum membership, limit bounds, default -/

/-- C4. `skald-search` validation rejects, before any backend call, every
`search_method` outside the declared enumeration (for the extended surface
the single member `chunk_semantic_search`; the legacy surface's
three-member enumeration is covered by the last conjunct) and every
`limit` strictly below 1 or strictly above 50; when `limit` is omitted the
validated arguments carry `limit` exactly 10. -/
theorem searchValidation_enum_bounds_default :
    (∀ r : RawSearchArgs, r.search_method ≠ "chunk_semantic_search" →
        validateSearch r = none)
  ∧ (∀ (r : RawSearchArgs) (l : ℚ), r.limit = some l → l < 1 →
        validateSearch r = none)
  ∧ (∀ (r : RawSearchArgs) (l : ℚ), r.limit = some l → 50 < l →
        validateSearch r = none)
  ∧ (∀ (r : RawSearchArgs) (m : SearchMethod), r.limit = none →
        parseSearchMethod r.search_method = some m →
        validateSearch r = some ⟨r.query, m, 10, r.filters⟩)
  ∧ (∀ s : String,
        s ∉ (["chunk_vector_search", "title_contains", "title_startswith"] : List String) →
        parseSearchMethodLegacy s = none) := by
  refine ⟨?_, ?_, ?_, ?_, ?_⟩
  · intro r h
    simp [validateSearch, parseSearchMethod, h]
  · intro r l hl hlt
    cases hp : parseSearchMethod r.search_method with
    | none => simp [validateSearch, hp]
    | some m =>
        simp only [validateSearch, hp, hl]
        rw [if_neg]
        rintro ⟨h1, -⟩
        exact absurd h1 (not_le.mpr hlt)
  · intro r l hl hlt
    cases hp : parseSearchMethod r.search_method with
    | none => simp [validateSearch, hp]
    | some m =>
        simp only [validateSearch, hp, hl]
        rw [if_neg]
        rintro ⟨-, h2⟩
        exact absurd h2 (not_le.mpr hlt)
  · intro r m hl hp
    simp [validateSearch, hp, hl]
  · intro s hs
    simp only [List.mem_cons, List.mem_singleton, not_or] at hs
    obtain ⟨h1, h2, h3⟩ := hs
    simp [parseSearchMethodLegacy, h1, h2, h3]

/-- C4, witness: the enum rejection, both bound rejections, the default
and the legacy enum rejection at concrete inputs. -/
theorem searchValidation_enum_bounds_default_witness :
    validateSearch ⟨"q", "title_contains", none, none⟩ = none
  ∧ validateSearch ⟨"q", "chunk_semantic_search", some 0, none⟩ = none
  ∧ validateSearch ⟨"q", "chunk_semantic_search", some 51, none⟩ = none
  ∧ validateSearch ⟨"q", "chunk_semantic_search", none, none⟩ =
      some ⟨"q", SearchMethod.chunk_semantic_search, 10, none⟩
  ∧ parseSearchMethodLegacy "chunk_semantic_search" = none :=
  ⟨searchValidation_enum_bounds_default.1 ⟨"q", "title_contains", none, none⟩ (by decide),
   searchValidation_enum_bounds_default.2.1 ⟨"q", "chunk_semantic_search", some 0, none⟩ 0
     rfl (by norm_num),
   searchValidation_enum_bounds_default.2.2.1 ⟨"q", "chunk_semantic_search", some 51, none⟩ 51
     rfl (by norm_num),
   searchValidation_enum_bounds_default.2.2.2.1 ⟨"q", "chunk_semantic_search", none, none⟩
     SearchMethod.chunk_semantic_search rfl (by decide),
   searchValidation_enum_bounds_default.2.2.2.2 "chunk_semantic_search" (by decide)⟩

/-! ## The skald-search response formatter -/

/-- Decimal digits of a natural number, left-padded with zeros to width 4
(the fraction part of a `toFixed(4)` rendering). -/
def pad4 (n : Nat) : String :=
  String.mk (List.replicate (4 - (toString n).length) '0') ++ toString n

/-- `Number.prototype.toFixed(4)` over exact rationals, following
ECMA-262: the sign is extracted first, then the integer nearest to
`|x|·10⁴` is chosen, ties going to the larger integer, and rendered with
exactly four fraction digits. -/
def toFixed4 (x : ℚ) : String :=
  (if x < 0 then "-" else "")
    ++ toString ((Int.floor (|x| * 10000 + 1/2)).toNat / 10000)
    ++ "." ++ pad4 ((Int.floor (|x| * 10000 + 1/2)).toNat % 10000)

/-- The `distance` field of a backend search result as JavaScript sees
it: a number (similarity search), `null` (non-ranked method), or absent
(`undefined`). -/
inductive Distance
  | num (value : ℚ)
  | null
  | undef
deriving DecidableEq

/-- One backend search result consumed by the `skald-search` formatter. -/
structure SearchResult where
  title : String
  uuid : String
  summary : String
  content_snippet : String
  distance : Distance
deriving DecidableEq

/-- Formatting of one search result block: the four fixed parts, then
`if (result.distance !== null) parts.push('   Distance: ' + result.distance.toFixed(4) + ' (lower is more relevant)')`,
joined by newlines. The guard passes both a number and `undefined`; on
`undefined` the `.toFixed(4)` call raises a TypeError, modelled as
`none`. -/
def formatResult (idx : Nat) (r : SearchResult) : Option String :=
  match r.distance with
  | Distance.null =>
      some (joinSep "\n"
        [toString (idx + 1) ++ ". " ++ r.title,
         "   UUID: " ++ r.uuid,
         "   Summary: " ++ r.summary,
         "   Snippet: " ++ r.content_snippet])
  | Distance.num q =>
      some (joinSep "\n"
        [toString (idx + 1) ++ ". " ++ r.title,
         "   UUID: " ++ r.uuid,
         "   Summary: " ++ r.summary,
         "   Snippet: " ++ r.content_snippet,
         "   Distance: " ++ toFixed4 q ++ " (lower is more relevant)"])
  | Distance.undef => none

/-- The `response.results.map((result, idx) => ...)` loop: a TypeError
raised inside the callback propagates out of the whole map (into the
surrounding catch), modelled by `none`. -/
def formatBlocks (idx : Nat) : List SearchResult → Option (List String)
  | [] => some []
  | r :: rest =>
    match formatResult idx r with
    | none => none
    | some b =>
      match formatBlocks (idx + 1) rest with
      | none => none
      | some bs => some (b :: bs)

/-- The full `skald-search` response formatter: the result blocks joined
by blank lines (or the fixed no-results message), prefixed by the count
line. -/
def formatSearchResponse (results : List SearchResult) : Option String :=
  match formatBlocks 0 results with
  | none => none
  | some blocks =>
      some ("Found " ++ toString results.length ++ " result(s):\n\n"
        ++ (if 0 < results.length then joinSep "\n\n" blocks else "No results found"))

lemma formatResult_eq_none_iff (idx : Nat) (r : SearchResult) :
    formatResult idx r = none ↔ r.distance = Distance.undef := by
  cases hd : r.distance <;> simp [formatResult, hd]

lemma formatBlocks_eq_none_iff (l : List SearchResult) :
    ∀ idx : Nat, formatBlocks idx l = none ↔ ∃ r ∈ l, r.distance = Distance.undef := by
  induction l with
  | nil => intro idx; simp [formatBlocks]
  | cons r rest ih =>
    intro idx
    simp only [formatBlocks]
    cases hf : formatResult idx r with
    | none =>
      have hr := (formatResult_eq_none_iff idx r).mp hf
      constructor
      · intro _; exact ⟨r, List.mem_cons_self r rest, hr⟩
      · intro _; rfl
    | some b =>
      have hr : r.distance ≠ Distance.undef := by
        intro hu
        rw [(formatResult_eq_none_iff idx r).mpr hu] at hf
        exact Option.noConfusion hf
      cases hb : formatBlocks (idx + 1) rest with
      | none =>
        obtain ⟨r', hm', hd'⟩ := (ih (idx + 1)).mp hb
        constructor
        · intro _; exact ⟨r', List.mem_cons_of_mem r hm', hd'⟩
        · intro _; rfl
      | some bs =>
        constructor
        · intro h; exact Option.noConfusion h
        · rintro ⟨r', hm', hd'⟩
          rcases List.mem_cons.mp hm' with h | h
          · exact absurd hd' (h ▸ hr)
          · exact absurd ((ih (idx + 1)).mpr ⟨r', h, hd'⟩) (by simp [hb])

/-! ## Claim C6: distance rendering -/

/-- C6. A result whose `distance` is a number gets a distance line with
the value rendered to 4 decimal places and the suffix
"(lower is more relevant)" — in particular distance 0.12345 renders as
"0.1235" — and a result whose `distance` is `null` yields a block of
exactly the four base lines, with no distance line. -/
theorem searchFormatter_distance_rendering :
    formatResult 0 ⟨"Doc", "u-1", "sum", "snip", Distance.num 0.12345⟩ =
      some "1. Doc\n   UUID: u-1\n   Summary: sum\n   Snippet: snip\n   Distance: 0.1235 (lower is more relevant)"
  ∧ (∀ (idx : Nat) (r : SearchResult) (q : ℚ), r.distance = Distance.num q →
        formatResult idx r =
          some (toString (idx + 1) ++ ". " ++ r.title
            ++ "\n" ++ "   UUID: " ++ r.uuid
            ++ "\n" ++ "   Summary: " ++ r.summary
            ++ "\n" ++ "   Snippet: " ++ r.content_snippet
            ++ "\n" ++ "   Distance: " ++ toFixed4 q ++ " (lower is more relevant)"))
  ∧ (∀ (idx : Nat) (r : SearchResult), r.distance = Distance.null →
        formatResult idx r =
          some (toString (idx + 1) ++ ". " ++ r.title
            ++ "\n" ++ "   UUID: " ++ r.uuid
            ++ "\n" ++ "   Summary: " ++ r.summary
            ++ "\n" ++ "   Snippet: " ++ r.content_snippet)) := by
  have htf : toFixed4 0.12345 = "0.1235" := by
    have h0 : ¬ ((0.12345 : ℚ) < 0) := by norm_num
    have he : |(0.12345 : ℚ)| * 10000 + 1/2 = 1235 := by
      rw [abs_of_nonneg (by norm_num : (0 : ℚ) ≤ 0.12345)]
      norm_num
    have hq : ⌊|(0.12345 : ℚ)| * 10000 + 1/2⌋ = (1235 : ℤ) := by
      rw [he]
      norm_num
    simp only [toFixed4, hq, if_neg h0]
    rfl
  refine ⟨?_, ?_, ?_⟩
  · simp only [formatResult, joinSep, htf]
    rfl
  · intro idx r q hd
    obtain ⟨t, u, s, c, d⟩ := r
    simp only at hd
    subst hd
    simp only [formatResult, joinSep, String.append_assoc]
  · intro idx r hd
    obtain ⟨t, u, s, c, d⟩ := r
    simp only at hd
    subst hd
    simp only [formatResult, joinSep, String.append_assoc]

/-- C6, witness: the general number branch and the null branch applied at
concrete results. -/
theorem searchFormatter_distance_rendering_witness :
    formatResult 1 ⟨"A", "u", "s", "c", Distance.num 2⟩ =
      some (toString (1 + 1) ++ ". " ++ "A" ++ "\n" ++ "   UUID: " ++ "u"
        ++ "\n" ++ "   Summary: " ++ "s" ++ "\n" ++ "   Snippet: " ++ "c"
        ++ "\n" ++ "   Distance: " ++ toFixed4 2 ++ " (lower is more relevant)")
  ∧ formatResult 1 ⟨"A", "u", "s", "c", Distance.null⟩ =
      some (toString (1 + 1) ++ ". " ++ "A" ++ "\n" ++ "   UUID: " ++ "u"
        ++ "\n" ++ "   Summary: " ++ "s" ++ "\n" ++ "   Snippet: " ++ "c") :=
  ⟨searchFormatter_distance_rendering.2.1 1 ⟨"A", "u", "s", "c", Distance.num 2⟩ 2 rfl,
   searchFormatter_distance_rendering.2.2 1 ⟨"A", "u", "s", "c", Distance.null⟩ rfl⟩

/-! ## Claim C9: the formatter is total only when no distance is absent -/

/-- C9. The `skald-search` formatter produces a text block exactly when
every result's `distance` is a number or `null`: the guard tests
`distance !== null` alone, so whenever some result's `distance` is absent
(`undefined`) the numeric formatting is applied to a non-number and the
formatter fails (the failure propagates to the catch) instead of omitting
the distance line. -/
theorem searchFormatter_fails_on_absent_distance :
    ∀ results : List SearchResult,
      formatSearchResponse results = none ↔
        ∃ r ∈ results, r.distance = Distance.undef := by
  intro results
  constructor
  · intro h
    apply (formatBlocks_eq_none_iff results 0).mp
    cases hb : formatBlocks 0 results with
    | none => rfl
    | some bs => simp [formatSearchResponse, hb] at h
  · intro hex
    have hb := (formatBlocks_eq_none_iff results 0).mpr hex
    simp [formatSearchResponse, hb]

/-! ## The skald-get-memo response formatter -/

/-- One element of a memo's `tags` sequence: `{ tag: string }`. -/
structure MemoTag where
  tag : String
deriving DecidableEq

/-- One element of a memo's `chunks` sequence. -/
structure MemoChunk where
  chunk_index : Int
  chunk_content : String
deriving DecidableEq

/-- The read shape of a backend memo as `skald-get-memo` consumes it.
`client_reference_id` and `source` may be absent (`none`). -/
structure Memo where
  uuid : String
  title : String
  content : String
  summary : String
  tags : List MemoTag
  client_reference_id : Option String
  source : Option String
  type : String
  created_at : String
  updated_at : String
  chunks : List MemoChunk
deriving DecidableEq

/-- `x || 'None'` on an optional string field: absent and empty are both
falsy, so both render as "None". -/
def orNone : Option String → String
  | none => "None"
  | some s => if s == "" then "None" else s

/-- `memo.tags.map((t) => t.tag).join(', ')`. -/
def tagsText (m : Memo) : String :=
  joinSep ", " (m.tags.map (fun t => t.tag))

/-- `memo.chunks.map((c) => ...).join('\n')`: per-chunk preview lines,
index plus the first 100 characters of the content (JavaScript
`substring(0, 100)`, which coincides with taking 100 characters here),
ellipsis-suffixed. -/
def chunksText (m : Memo) : String :=
  joinSep "\n"
    (m.chunks.map (fun c =>
      "Chunk " ++ toString c.chunk_index ++ ": " ++ c.chunk_content.take 100 ++ "..."))

/-- The `skald-get-memo` formatter: the twelve-entry template-literal
array, `filter(Boolean)` (drops empty strings) and `join('\n')`. -/
def formatGetMemo (m : Memo) : String :=
  joinSep "\n"
    ((["Memo: " ++ m.title,
       "UUID: " ++ m.uuid,
       "Created: " ++ m.created_at,
       "Updated: " ++ m.updated_at,
       "Summary: " ++ m.summary,
       "Content: " ++ m.content,
       "Tags: " ++ (if tagsText m == "" then "None" else tagsText m),
       "Client Reference ID: " ++ orNone m.client_reference_id,
       "Source: " ++ orNone m.source,
       "Type: " ++ m.type,
       "Chunks: " ++ toString m.chunks.length,
       if chunksText m == "" then "" else "\n" ++ chunksText m]).filter
      (fun s => !(s == "")))

/-- The eleven labeled header lines of the get-memo rendering, in the
fixed order the spec lists: title, uuid, timestamps, summary, content,
tags joined by comma or "None", client reference id or "None", source or
"None", type, chunk count. -/
def getMemoHeaderLines (m : Memo) : List String :=
  ["Memo: " ++ m.title,
   "UUID: " ++ m.uuid,
   "Created: " ++ m.created_at,
   "Updated: " ++ m.updated_at,
   "Summary: " ++ m.summary,
   "Content: " ++ m.content,
   "Tags: " ++ (if tagsText m == "" then "None" else tagsText m),
   "Client Reference ID: " ++ orNone m.client_reference_id,
   "Source: " ++ orNone m.source,
   "Type: " ++ m.type,
   "Chunks: " ++ toString m.chunks.length]

/-- A sample backend memo with no tags, absent optional fields and no
chunks. -/
def sampleMemoEmptyTags : Memo :=
  ⟨"U", "T", "X", "S", [], none, none, "manual", "C1", "C2", []⟩

/-- A sample backend memo with tags a and b and one chunk. -/
def sampleMemoTagged : Memo :=
  ⟨"U", "T", "X", "S", [⟨"a"⟩, ⟨"b"⟩], some "ref-1", some "notion", "manual",
   "C1", "C2", [⟨0, "hello"⟩]⟩

lemma append_ne_empty_left (s t : String) (h : s ≠ "") : s ++ t ≠ "" := by
  intro he
  apply h
  apply String.ext
  have hd : s.data ++ t.data = [] := by
    have hc := congrArg String.data he
    rwa [String.data_append] at hc
  exact (List.append_eq_nil.mp hd).1

lemma beq_empty_eq_false (s : String) (h : s ≠ "") : (s == "") = false :=
  beq_eq_false_iff_ne.mpr h

lemma joinSep_cons_ne_empty (sep x : String) (xs : List String) (h : x ≠ "") :
    joinSep sep (x :: xs) ≠ "" := by
  cases xs with
  | nil => simpa [joinSep] using h
  | cons y ys =>
      show x ++ sep ++ joinSep sep (y :: ys) ≠ ""
      exact append_ne_empty_left _ _ (append_ne_empty_left _ _ h)

lemma label_line_beq_empty (a b : String) (h : a ≠ "") : ((a ++ b) == "") = false :=
  beq_empty_eq_false _ (append_ne_empty_left a b h)

/-! ## Claim C8: get-memo rendering layout -/

set_option maxRecDepth 4000 in
/-- C8. The get-memo rendering is the eleven fixed ordered labeled lines
(title, uuid, timestamps, summary, content, tags, client reference id,
source, type, chunk count); when the memo has chunks they are followed by
the per-chunk previews (index plus first 100 characters, ellipsis
suffix), and when it has none the blank chunk entry is dropped from the
final text rather than rendered as an empty line. On the sample memos: an
empty tags sequence renders the line "Tags: None" and the tags
[{tag:"a"},{tag:"b"}] render "Tags: a, b". -/
theorem getMemoFormatter_layout :
    (∀ m : Memo, m.chunks = [] →
        formatGetMemo m = joinSep "\n" (getMemoHeaderLines m))
  ∧ (∀ m : Memo, m.chunks ≠ [] →
        formatGetMemo m =
          joinSep "\n" (getMemoHeaderLines m
            ++ ["\n" ++ joinSep "\n" (m.chunks.map (fun c =>
                  "Chunk " ++ toString c.chunk_index ++ ": "
                    ++ c.chunk_content.take 100 ++ "..."))]))
  ∧ formatGetMemo sampleMemoEmptyTags =
      "Memo: T\nUUID: U\nCreated: C1\nUpdated: C2\nSummary: S\nContent: X\nTags: None\nClient Reference ID: None\nSource: None\nType: manual\nChunks: 0"
  ∧ formatGetMemo sampleMemoTagged =
      "Memo: T\nUUID: U\nCreated: C1\nUpdated: C2\nSummary: S\nContent: X\nTags: a, b\nClient Reference ID: ref-1\nSource: notion\nType: manual\nChunks: 1\n\nChunk 0: hello..." := by
  have hj0 : joinSep "\n" ([] : List String) = "" := rfl
  refine ⟨?_, ?_, by decide, by decide⟩
  · intro m hch
    obtain ⟨uu, ti, co, su, tg, cr, so, ty, ca, ua, ch⟩ := m
    simp only at hch
    subst hch
    simp [formatGetMemo, getMemoHeaderLines, chunksText, List.filter,
      label_line_beq_empty, hj0]
  · intro m hch
    obtain ⟨uu, ti, co, su, tg, cr, so, ty, ca, ua, ch⟩ := m
    simp only at hch
    cases ch with
    | nil => exact absurd rfl hch
    | cons c cs =>
      have h1 : ("Chunk " : String) ≠ "" := by decide
      have h2 : "Chunk " ++ toString c.chunk_index ≠ "" :=
        append_ne_empty_left _ _ h1
      have h3 : "Chunk " ++ toString c.chunk_index ++ ": " ≠ "" :=
        append_ne_empty_left _ _ h2
      have h4 : "Chunk " ++ toString c.chunk_index ++ ": "
          ++ c.chunk_content.take 100 ≠ "" :=
        append_ne_empty_left _ _ h3
      have hcl : "Chunk " ++ toString c.chunk_index ++ ": "
          ++ c.chunk_content.take 100 ++ "..." ≠ "" :=
        append_ne_empty_left _ _ h4
      have hjoin : joinSep "\n"
          (("Chunk " ++ toString c.chunk_index ++ ": "
              ++ c.chunk_content.take 100 ++ "...")
            :: List.map (fun c => "Chunk " ++ toString c.chunk_index ++ ": "
                 ++ c.chunk_content.take 100 ++ "...") cs) ≠ "" :=
        joinSep_cons_ne_empty _ _ _ hcl
      simp [formatGetMemo, getMemoHeaderLines, chunksText, List.filter,
        label_line_beq_empty, hjoin]

/-- C8, witness: both general branches applied to the sample memos. -/
theorem getMemoFormatter_layout_witness :
    formatGetMemo sampleMemoEmptyTags = joinSep "\n" (getMemoHeaderLines sampleMemoEmptyTags)
  ∧ formatGetMemo sampleMemoTagged =
      joinSep "\n" (getMemoHeaderLines sampleMemoTagged
        ++ ["\n" ++ joinSep "\n" (sampleMemoTagged.chunks.map (fun c =>
              "Chunk " ++ toString c.chunk_index ++ ": "
                ++ c.chunk_content.take 100 ++ "..."))]) :=
  ⟨getMemoFormatter_layout.1 sampleMemoEmptyTags rfl,
   getMemoFormatter_layout.2.1 sampleMemoTagged (by decide)⟩

end SkaldMcp
